import Mathlib

/-!
Shallow embedding of the IR_Project embedding-model pipeline
(src/embeddings_model.py, src/word2vec_model.py, src/naive_bayes_model.py,
src/AutoTransformerModel.py, src/model_fitting.py).

External libraries (gensim, sklearn, transformers) are modelled as opaque
function parameters; Python floats are modelled as rationals; Python
exceptions are modelled with Except; the filesystem is modelled as a
predicate on paths.
-/

/-- Python-level exceptions that the modelled code can raise. -/
inductive PyErr
  | typeError
  | osError (msg : String)
deriving DecidableEq

/-- One element of a sentence_vectors result.  The base class
(embeddings_model.py, EmbeddingsModel.sentence_vectors) appends the plain
integer 0 per document; Word2VecModel appends numeric vectors; the
Naive-Bayes strategy appends joined text strings. -/
inductive SentVal
  | scalar (z : Int)
  | vec (v : List ℚ)
  | text (s : String)
deriving DecidableEq

/-- Whether a sentence_vectors element is a numeric vector. -/
def SentVal.isVec : SentVal → Bool
  | .vec _ => true
  | _ => false

/-- A fitted gensim Word2Vec handle: its keyed vectors (token to embedding)
and its vector_size (embedding dimensionality). -/
structure W2VGensim where
  wv : List (String × List ℚ)
  vector_size : ℕ
deriving DecidableEq

/-- Embedding lookup in the keyed vectors (gensim wv[word]). -/
def W2VGensim.lookup (m : W2VGensim) (w : String) : Option (List ℚ) :=
  (m.wv.find? (fun p => p.1 = w)).map Prod.snd

/-- Vocabulary membership test (Python: word in self.model.wv). -/
def W2VGensim.hasWord (m : W2VGensim) (w : String) : Bool :=
  (m.lookup w).isSome

/-- Componentwise addition of two numeric vectors. -/
def vecAdd (a b : List ℚ) : List ℚ :=
  List.zipWith (· + ·) a b

/-- Componentwise sum of a nonempty stack of equal-length vectors. -/
def vecSum : List (List ℚ) → List ℚ
  | [] => []
  | [v] => v
  | v :: rest => vecAdd v (vecSum rest)

/-- np.mean(stack, axis=0): componentwise arithmetic mean of a stack of
equal-length vectors. -/
def npMean (vs : List (List ℚ)) : List ℚ :=
  (vecSum vs).map (fun x => x / (vs.length : ℚ))

/-- Log levels used by the modelled logging calls. -/
inductive LogLevel
  | info
  | error
deriving DecidableEq

/-- One emitted log message. -/
structure LogMsg where
  level : LogLevel
  msg : String
deriving DecidableEq

/-- The mutable state of a Word2VecModel instance: the fields set by
EmbeddingsModel.__init__ and updated by fit / load. -/
structure Word2VecState where
  name : String
  model : Option W2VGensim
  parameters : ℕ
deriving DecidableEq

/-- EmbeddingsModel.sentence_vectors (embeddings_model.py lines 39-48):
appends the integer 0 once per document. -/
def EmbeddingsModel.sentence_vectors (corpus : List (List String)) : List SentVal :=
  corpus.map (fun _ => SentVal.scalar 0)

/-- Word2VecModel.sentence_vectors (word2vec_model.py lines 79-98), paired
with the log messages it emits.  Unfit: logs an error and falls back to the
base-class behaviour.  Fit: per document, filters the tokens to those in the
vocabulary, averages their embeddings, and uses a zero vector of
vector_size when no token is known. -/
def Word2VecModel.sentence_vectors (s : Word2VecState) (corpus : List (List String)) :
    List SentVal × List LogMsg :=
  match s.model with
  | none =>
      (EmbeddingsModel.sentence_vectors corpus,
       [⟨LogLevel.error, "Word2Vec model not initialized."⟩])
  | some m =>
      (corpus.map (fun sentence =>
        let words := sentence.filter (fun w => m.hasWord w)
        if words.isEmpty then
          SentVal.vec (List.replicate m.vector_size 0)
        else
          SentVal.vec (npMean (words.map (fun w => (m.lookup w).getD [])))), [])

/-- The state produced by the argument-free constructor
Word2VecModel.__init__ (word2vec_model.py lines 19-23), which only calls
EmbeddingsModel.__init__ with the name word2vec. -/
def unfitW2V : Word2VecState :=
  { name := "word2vec", model := none, parameters := 0 }

/-- The params dictionary accepted by Word2VecModel.fit: each field is
some value when the corresponding key is present in the dictionary. -/
structure FitParams where
  Alpha : Option ℚ
  Window : Option ℚ
  Negative : Option ℚ
deriving DecidableEq

/-- The empty params dictionary (Python: params = \x7b\x7d). -/
def emptyParams : FitParams :=
  { Alpha := none, Window := none, Negative := none }

/-- alpha = params[Alpha] if Alpha in params else 0.025, after replacing a
None params argument by the empty dictionary. -/
def effectiveAlpha (params : Option FitParams) : ℚ :=
  ((params.getD emptyParams).Alpha).getD (1 / 40)

/-- window = params[Window] if Window in params else 5. -/
def effectiveWindow (params : Option FitParams) : ℚ :=
  ((params.getD emptyParams).Window).getD 5

/-- negative = params[Negative] if Negative in params else 5. -/
def effectiveNegative (params : Option FitParams) : ℚ :=
  ((params.getD emptyParams).Negative).getD 5

/-- The derived model name (word2vec_model.py line 40).  The fmt argument
models the Python f-string rendering of a number. -/
def derivedName (fmt : ℚ → String) (alpha window negative : ℚ) : String :=
  "word2vec_alpha-" ++ fmt alpha ++ "_window-" ++ fmt window ++ "_negative-" ++ fmt negative

/-- The name Word2VecModel.fit assigns for a given params dictionary. -/
def fitName (fmt : ℚ → String) (params : Option FitParams) : String :=
  derivedName fmt (effectiveAlpha params) (effectiveWindow params) (effectiveNegative params)

/-- Which branch Word2VecModel.fit took. -/
inductive FitOutcome
  | skipped
  | trained
deriving DecidableEq

/-- The observable result of Word2VecModel.fit: the updated instance state,
the branch taken, the log messages emitted, and the files written. -/
structure FitResult where
  state : Word2VecState
  outcome : FitOutcome
  logs : List LogMsg
  writes : List String
deriving DecidableEq

/-- Word2VecModel.fit (word2vec_model.py lines 25-60).  The external
gensim training call is the train parameter; os.path.exists is the
pathExists parameter.  The name is set from the effective hyperparameter
triple before the existence check; if the artifact path already exists the
method logs and returns early, otherwise it trains, saves the model and
writes the training loss. -/
def Word2VecModel.fit (fmt : ℚ → String)
    (train : List (List String) → ℕ → ℚ → ℚ → ℚ → W2VGensim)
    (pathExists : String → Bool)
    (s : Word2VecState) (corpus : List (List String)) (output : String) (seed : ℕ)
    (params : Option FitParams) : FitResult :=
  let alpha := effectiveAlpha params
  let window := effectiveWindow params
  let negative := effectiveNegative params
  let name := derivedName fmt alpha window negative
  let s1 : Word2VecState := { s with name := name }
  let path := output ++ "/" ++ name ++ ".txt"
  if pathExists path then
    { state := s1, outcome := .skipped,
      logs := [⟨LogLevel.info, "Model " ++ path ++ " already exists."⟩],
      writes := [] }
  else
    let lossPath := output ++ "_Loss" ++ "/" ++ name ++ "_loss.txt"
    { state := { s1 with model := some (train corpus seed alpha window negative) },
      outcome := .trained,
      logs := [⟨LogLevel.info, "Fitting " ++ path ++ "..."⟩],
      writes := [path, lossPath] }

/-- Split a character list at every occurrence of the separator, keeping
empty pieces, with an accumulator for the current piece. -/
def splitCharAux (sep : Char) : List Char → List Char → List (List Char)
  | [], acc => [acc.reverse]
  | c :: rest, acc =>
      if c = sep then acc.reverse :: splitCharAux sep rest []
      else splitCharAux sep rest (c :: acc)

/-- Python str.split with a one-character separator: splits at every
occurrence, keeping empty pieces, and yields one piece for the empty
string. -/
def pySplit (sep : Char) (s : String) : List String :=
  (splitCharAux sep s.data []).map (fun cs => String.mk cs)

/-- os.path.basename for forward-slash paths. -/
def pyBasename (p : String) : String :=
  (pySplit (Char.ofNat 47) p).getLastD ("")

/-- os.path.basename(path).split(".")[0] (word2vec_model.py line 77). -/
def loadedName (path : String) : String :=
  (pySplit (Char.ofNat 46) (pyBasename path)).headD ("")

/-- Word2VecModel.load (word2vec_model.py lines 62-77).  The external
gensim Word2Vec.load call is the loader parameter; the try/except block
catches every loader failure, logs it and resets the handle to None, so
the method itself always returns normally (hence the Except value is
always ok). -/
def Word2VecModel.load (loader : String → Except PyErr W2VGensim)
    (s : Word2VecState) (path : String) : Except PyErr (Word2VecState × List LogMsg) :=
  match loader path with
  | .error _ =>
      .ok ({ s with model := none },
           [⟨LogLevel.error, "Error loading " ++ path ++ " as a Word2Vec model."⟩])
  | .ok m =>
      .ok ({ s with model := some m, name := loadedName path }, [])

/-- An opaque pretrained transformer handle (transformers AutoModel). -/
structure HFModel where
  id : String
deriving DecidableEq

/-- An opaque pretrained tokenizer handle (transformers AutoTokenizer). -/
structure HFTokenizer where
  id : String
deriving DecidableEq

/-- The mutable state of an AutoTransformerModel instance. -/
structure AutoTransformerState where
  name : String
  root : String
  model : Option HFModel
  tokenizer : Option HFTokenizer
  parameters : ℕ
deriving DecidableEq

/-- AutoTransformerModel.load (AutoTransformerModel.py lines 21-30).  The
external from_pretrained calls are the fromModel and fromTok parameters.
The body has no exception handling, so a failing from_pretrained call
propagates to the caller: the result is an error exactly when a loader
fails. -/
def AutoTransformerModel.load (fromModel : String → Except PyErr HFModel)
    (fromTok : String → Except PyErr HFTokenizer)
    (s : AutoTransformerState) (_path : String) :
    Except PyErr (AutoTransformerState × List LogMsg) := do
  let temp := s.root ++ "/" ++ s.name
  let m ← fromModel temp
  let t ← fromTok temp
  pure ({ s with model := some m, tokenizer := some t }, [])

/-- The sklearn classifiers that appear in the modelled code. -/
inductive SkClassifier
  | logisticRegression (solver : String) (seed : ℕ)
  | multinomialNB
deriving DecidableEq

/-- The feature matrix a classifier is fit on or predicts from: either the
raw sentence-vector output, or the result of the TF-IDF vectorizer
(fit_transform on the train split, transform on the test split). -/
inductive FeatureMatrix
  | numeric (xs : List SentVal)
  | tfidfFitTransform (xs : List SentVal)
  | tfidfTransform (xs : List SentVal)
deriving DecidableEq

/-- The four outputs of sklearn train_test_split. -/
structure SplitResult where
  xTrain : List SentVal
  xTest : List SentVal
  yTrain : List ℕ
  yTest : List ℕ

/-- The classification-relevant trace of EmbeddingsModel.classify: which
classifier was fit, and on which features it was fit and evaluated. -/
structure ClassifyTrace where
  usedClassifier : SkClassifier
  xTrainFit : FeatureMatrix
  xTestPred : FeatureMatrix
deriving DecidableEq

/-- EmbeddingsModel.classify (embeddings_model.py lines 50-81), up to and
including the classifier fit/predict step.  The label encoder and
train_test_split are external sklearn calls, passed as parameters.  If no
classifier is passed, a logistic regression with the lbfgs solver is fit
directly on the numeric sentence vectors; otherwise the train and test
portions are first TF-IDF vectorized and the passed classifier is fit on
those features. -/
def EmbeddingsModel.classify (sv : List (List String) → List SentVal)
    (encode : List String → List ℕ)
    (split : List SentVal → List ℕ → ℕ → SplitResult)
    (corpus : List (List String)) (labels : List String) (seed : ℕ)
    (classifier : Option SkClassifier) : ClassifyTrace :=
  let embeddings := sv corpus
  let encoded := encode labels
  let sp := split embeddings encoded seed
  match classifier with
  | none =>
      { usedClassifier := .logisticRegression ("lbfgs") seed,
        xTrainFit := .numeric sp.xTrain,
        xTestPred := .numeric sp.xTest }
  | some c =>
      { usedClassifier := c,
        xTrainFit := .tfidfFitTransform sp.xTrain,
        xTestPred := .tfidfTransform sp.xTest }

/-- NaiveBayesModel.sentence_vectors (naive_bayes_model.py lines 19-28):
joins each document's tokens into one text string. -/
def NaiveBayesModel.sentence_vectors (corpus : List (List String)) : List SentVal :=
  corpus.map (fun sentence => SentVal.text (String.intercalate (" ") sentence))

/-- NaiveBayesModel.classify (naive_bayes_model.py lines 30-41): delegates
to the shared harness, always passing MultinomialNB as the classifier and
ignoring its own classifier argument. -/
def NaiveBayesModel.classify (encode : List String → List ℕ)
    (split : List SentVal → List ℕ → ℕ → SplitResult)
    (corpus : List (List String)) (labels : List String) (seed : ℕ)
    (_classifier : Option SkClassifier) : ClassifyTrace :=
  EmbeddingsModel.classify NaiveBayesModel.sentence_vectors encode split corpus labels seed
    (some .multinomialNB)

/-- A positional argument of a Python call in the modelled driver. -/
inductive PyArg
  | corpus (c : List (List String))
  | str (s : String)
  | nat (n : ℕ)
  | rat (q : ℚ)
deriving DecidableEq

/-- A Python call of the Word2VecModel class (word2vec_model.py lines
19-23).  The source signature is def __init__(self), so the call binds
successfully only when no positional argument besides self is supplied;
any other arity raises TypeError, per Python call semantics.  On success
the instance state is the one set by EmbeddingsModel.__init__ with the
name word2vec. -/
def Word2VecModel.new (args : List PyArg) : Except PyErr Word2VecState :=
  if args.length = 0 then .ok unfitW2V else .error .typeError

/-- A hyperparameter axis argument of fit_best: a scalar or a list. -/
inductive PyAxis
  | scalar (q : ℚ)
  | list (qs : List ℚ)
deriving DecidableEq

/-- The wrapping fit_best applies to each axis (model_fitting.py lines
64-69): a scalar becomes a singleton list. -/
def PyAxis.toList : PyAxis → List ℚ
  | .scalar q => [q]
  | .list qs => qs

/-- The word-vector portion of fit_best (model_fitting.py lines 60-78):
construct the standard model eagerly, then walk the cross product of the
three axes, constructing a model per combination and evaluating it unless
its name equals the standard model's name.  The result is the list of
names of the combinations actually evaluated; any TypeError raised by a
constructor call aborts the whole sweep, as in Python. -/
def fitBestW2V (corpus : List (List String)) (output : String) (seed : ℕ)
    (alphas windows negatives : PyAxis) : Except PyErr (List String) :=
  match Word2VecModel.new [PyArg.corpus corpus, PyArg.str output, PyArg.nat seed] with
  | .error e => .error e
  | .ok std =>
      let combos :=
        alphas.toList.flatMap (fun a =>
          windows.toList.flatMap (fun w =>
            negatives.toList.map (fun n => (a, w, n))))
      combos.foldlM (fun acc awn =>
        match Word2VecModel.new [PyArg.corpus corpus, PyArg.str output, PyArg.nat seed,
            PyArg.rat awn.1, PyArg.rat awn.2.1, PyArg.rat awn.2.2] with
        | .error e => .error e
        | .ok w2v => if w2v.name ≠ std.name then .ok (acc ++ [w2v.name]) else .ok acc) []

/-- One leaderboard row accumulated by fit_best: the metrics stored for a
model name (model_fitting.py line 29). -/
structure EvalResult where
  Accuracy : ℚ
  Balanced : ℚ
  MCC : ℚ
  Parameters : ℚ
deriving DecidableEq

/-- A leaderboard entry: a model name with its metrics. -/
abbrev LeaderEntry := String × EvalResult

/-- The composite sort key of model_fitting.py lines 80-83: the tuple
(-Accuracy, -Balanced, -MCC, Parameters, name) compared lexicographically,
as Python sorted does with a tuple key. -/
def sortKey (e : LeaderEntry) : ℚ ×ₗ ℚ ×ₗ ℚ ×ₗ ℚ ×ₗ String :=
  toLex (-e.2.Accuracy,
    toLex (-e.2.Balanced,
      toLex (-e.2.MCC,
        toLex (e.2.Parameters, e.1))))

/-- Composite-key comparison between two leaderboard entries. -/
def keyLE (a b : LeaderEntry) : Prop :=
  sortKey a ≤ sortKey b

instance : DecidableRel keyLE :=
  fun a b => inferInstanceAs (Decidable (sortKey a ≤ sortKey b))

instance : IsTotal LeaderEntry keyLE :=
  ⟨fun a b => le_total (sortKey a) (sortKey b)⟩

instance : IsTrans LeaderEntry keyLE :=
  ⟨fun _ _ _ hab hbc => le_trans hab hbc⟩

/-- The leaderboard sort of model_fitting.py lines 79-83: a stable sort of
the accumulated rows by the composite key. -/
def sortLeaderboard (results : List LeaderEntry) : List LeaderEntry :=
  List.insertionSort keyLE results

/-- Well-formedness of a fitted gensim handle: every stored embedding has
the configured dimensionality, as gensim guarantees. -/
def wfGensim (m : W2VGensim) : Bool :=
  m.wv.all (fun p => p.2.length == m.vector_size)

/-- The tokens of a document that are present in the fitted vocabulary
(the comprehension at word2vec_model.py line 91). -/
def knownWords (m : W2VGensim) (sentence : List String) : List String :=
  sentence.filter (fun w => m.hasWord w)

/-- The property C6 states for the sentence vectors of a fitted
word-vector model: exactly one value per document; per document, a vector
that is the componentwise arithmetic mean of the embeddings of the
document's in-vocabulary tokens (stated componentwise: mean times count
equals the componentwise sum), and the zero vector of the embedding
dimensionality when no token of the document is in the vocabulary. -/
def FittedSentenceVectorsSpec (m : W2VGensim) (corpus : List (List String))
    (res : List SentVal) : Prop :=
  res.length = corpus.length ∧
  ∀ i, i < corpus.length →
    ((knownWords m (corpus.getD i []) = [] →
       res.getD i (SentVal.scalar 0) = SentVal.vec (List.replicate m.vector_size 0)) ∧
     (knownWords m (corpus.getD i []) ≠ [] →
       ∃ v : List ℚ,
         res.getD i (SentVal.scalar 0) = SentVal.vec v ∧
         v.length = m.vector_size ∧
         ∀ j, j < m.vector_size →
           v.getD j 0 * ((knownWords m (corpus.getD i [])).length : ℚ) =
             ((knownWords m (corpus.getD i [])).map
               (fun w => ((m.lookup w).getD []).getD j 0)).sum))

/-- The property C3 states for the shared classify harness: with no
classifier argument, a logistic regression is fit directly on the numeric
sentence-vector split; with a classifier argument, the split portions are
first TF-IDF vectorized; and the Naive-Bayes override always delegates to
the shared harness with MultinomialNB. -/
def HarnessBranchSpec (sv : List (List String) → List SentVal)
    (encode : List String → List ℕ)
    (split : List SentVal → List ℕ → ℕ → SplitResult)
    (corpus : List (List String)) (labels : List String) (seed : ℕ)
    (sp : SplitResult) : Prop :=
  (EmbeddingsModel.classify sv encode split corpus labels seed none =
    { usedClassifier := .logisticRegression ("lbfgs") seed,
      xTrainFit := .numeric sp.xTrain,
      xTestPred := .numeric sp.xTest }) ∧
  (∀ c, EmbeddingsModel.classify sv encode split corpus labels seed (some c) =
    { usedClassifier := c,
      xTrainFit := .tfidfFitTransform sp.xTrain,
      xTestPred := .tfidfTransform sp.xTest }) ∧
  (∀ c, NaiveBayesModel.classify encode split corpus labels seed c =
    EmbeddingsModel.classify NaiveBayesModel.sentence_vectors encode split corpus labels seed
      (some SkClassifier.multinomialNB))

/-- A small concrete fitted gensim handle used by witnesses. -/
def cGensim : W2VGensim :=
  { wv := [("a", [1, 3]), ("b", [3, 5])], vector_size := 2 }

/-- A concrete fitted Word2VecModel state. -/
def cFitW2V : Word2VecState :=
  { name := "word2vec", model := some cGensim, parameters := 0 }

/-- A concrete corpus with one mixed document and one all-unknown one. -/
def cCorpus6 : List (List String) :=
  [["a", "b", "z"], ["z"]]

/-- A concrete label encoder stand-in. -/
def cEnc : List String → List ℕ :=
  fun ls => List.range ls.length

/-- A concrete deterministic train_test_split stand-in. -/
def cSplit : List SentVal → List ℕ → ℕ → SplitResult :=
  fun xs ys _ =>
    { xTrain := xs.take 1, xTest := xs.drop 1, yTrain := ys.take 1, yTest := ys.drop 1 }

/-- A concrete corpus for the harness witness. -/
def cCorpus3 : List (List String) :=
  [["hello", "world"], ["foo"]]

/-- Concrete labels for the harness witness. -/
def cLabels3 : List String :=
  ["X", "Y"]

/-- The split the harness witness produces. -/
def cSp3 : SplitResult :=
  cSplit (NaiveBayesModel.sentence_vectors cCorpus3) (cEnc cLabels3) 42

/-- A concrete rendering function standing in for Python number
formatting. -/
def cFmt : ℚ → String :=
  fun q => toString q.num ++ "d" ++ toString q.den

/-- A concrete external training function. -/
def cTrain : List (List String) → ℕ → ℚ → ℚ → ℚ → W2VGensim :=
  fun _ _ _ _ _ => cGensim

/-- A filesystem on which every path exists. -/
def cAllthere : String → Bool :=
  fun _ => true

/-- A gensim loader that always fails. -/
def cFailW2VLoader : String → Except PyErr W2VGensim :=
  fun _ => .error (.osError ("no file"))

/-- A gensim loader that always succeeds with the concrete handle. -/
def cOkW2VLoader : String → Except PyErr W2VGensim :=
  fun _ => .ok cGensim

/-- A from_pretrained stand-in that always fails. -/
def cFailModelLoader : String → Except PyErr HFModel :=
  fun _ => .error (.osError ("missing"))

/-- A tokenizer loader that always succeeds. -/
def cOkTokLoader : String → Except PyErr HFTokenizer :=
  fun p => .ok ⟨p⟩

/-- A concrete AutoTransformerModel state (the MiniLM configuration). -/
def cAutoState : AutoTransformerState :=
  { name := "all-MiniLM-L6-v2", root := "sentence-transformers",
    model := none, tokenizer := none, parameters := 22700000 }

/-- vecAdd acts componentwise on positions below both lengths. -/
theorem vecAdd_getD (a : List ℚ) : ∀ (b : List ℚ) (j : ℕ), j < a.length → j < b.length →
    (vecAdd a b).getD j 0 = a.getD j 0 + b.getD j 0 := by
  induction a with
  | nil => intro b j hja _; simp at hja
  | cons x xs ih =>
      intro b j hja hjb
      cases b with
      | nil => simp at hjb
      | cons y ys =>
          cases j with
          | zero => simp [vecAdd]
          | succ j =>
              simp only [vecAdd, List.zipWith_cons_cons, List.getD_cons_succ]
              exact ih ys j (by simpa using hja) (by simpa using hjb)

/-- The componentwise sum of a nonempty uniform stack has the stack's
common length. -/
theorem vecSum_length (d : ℕ) (vs : List (List ℚ)) (hne : vs ≠ [])
    (h : ∀ v ∈ vs, v.length = d) : (vecSum vs).length = d := by
  induction vs with
  | nil => cases hne rfl
  | cons v rest ih =>
      cases rest with
      | nil => simpa [vecSum] using h v (by simp)
      | cons w rest2 =>
          have h1 := ih (by simp) (fun u hu => h u (List.mem_cons_of_mem _ hu))
          have h2 : v.length = d := h v (by simp)
          rw [show vecSum (v :: w :: rest2) = vecAdd v (vecSum (w :: rest2)) from rfl]
          rw [vecAdd, List.length_zipWith, h1, h2, min_self]

/-- Each component of the componentwise sum is the sum of the
components. -/
theorem vecSum_getD (d j : ℕ) (hj : j < d) (vs : List (List ℚ))
    (h : ∀ v ∈ vs, v.length = d) :
    (vecSum vs).getD j 0 = (vs.map (fun v => v.getD j 0)).sum := by
  induction vs with
  | nil => simp [vecSum]
  | cons v rest ih =>
      cases rest with
      | nil => simp [vecSum]
      | cons w rest2 =>
          have h1 := ih (fun u hu => h u (List.mem_cons_of_mem _ hu))
          have hlen : (vecSum (w :: rest2)).length = d :=
            vecSum_length d _ (by simp) (fun u hu => h u (List.mem_cons_of_mem _ hu))
          have hv : v.length = d := h v (by simp)
          rw [show vecSum (v :: w :: rest2) = vecAdd v (vecSum (w :: rest2)) from rfl]
          rw [vecAdd_getD v _ j (by omega) (by omega), h1]
          simp

/-- getD through map, below the length. -/
theorem getD_map_of_lt {α β : Type} (f : α → β) (l : List α) (j : ℕ) (hj : j < l.length)
    (d : α) (e : β) : (l.map f).getD j e = f (l.getD j d) := by
  induction l generalizing j with
  | nil => simp at hj
  | cons a as ih =>
      cases j with
      | zero => simp
      | succ j =>
          simp only [List.map_cons, List.getD_cons_succ]
          exact ih j (by simpa using hj)

/-- The componentwise mean of a nonempty uniform stack has the stack's
common length. -/
theorem npMean_length (d : ℕ) (vs : List (List ℚ)) (hne : vs ≠ [])
    (h : ∀ v ∈ vs, v.length = d) : (npMean vs).length = d := by
  rw [npMean, List.length_map]
  exact vecSum_length d vs hne h

/-- Each component of the componentwise mean is the component sum divided
by the stack size. -/
theorem npMean_getD (d j : ℕ) (hj : j < d) (vs : List (List ℚ)) (hne : vs ≠ [])
    (h : ∀ v ∈ vs, v.length = d) :
    (npMean vs).getD j 0 = (vs.map (fun v => v.getD j 0)).sum / (vs.length : ℚ) := by
  rw [npMean]
  rw [getD_map_of_lt _ _ j (by rw [vecSum_length d vs hne h]; exact hj) 0 0]
  rw [vecSum_getD d j hj vs h]

/-- A vocabulary word's stored embedding has the configured
dimensionality. -/
theorem lookup_length (m : W2VGensim) (hwf : wfGensim m = true) (w : String)
    (h : m.hasWord w = true) : ((m.lookup w).getD []).length = m.vector_size := by
  rw [wfGensim, List.all_eq_true] at hwf
  rw [W2VGensim.hasWord] at h
  cases hf : m.wv.find? (fun p => p.1 = w) with
  | none => rw [W2VGensim.lookup, hf] at h; simp at h
  | some p =>
      have hmem := List.mem_of_find?_eq_some hf
      have hlen := hwf p hmem
      rw [W2VGensim.lookup, hf]
      simpa using hlen

/-- C1: the claim asserts that calling the Word2VecModel constructor with
a corpus, an output directory and a seed (optionally plus a
hyperparameter triple) succeeds and fits eagerly.  The source constructor
(word2vec_model.py line 19) accepts no argument besides self, so both
call shapes used by the sweep driver (model_fitting.py lines 61 and 75)
raise TypeError; only the argument-free call succeeds, producing an unfit
state. -/
theorem C1_eager_constructor_raises :
    Word2VecModel.new [PyArg.corpus [["a"]],
        PyArg.str ("Embeddings/arXiv_processed_mitigated"), PyArg.nat 42] =
      .error PyErr.typeError ∧
    Word2VecModel.new [PyArg.corpus [["a"]],
        PyArg.str ("Embeddings/arXiv_processed_mitigated"), PyArg.nat 42,
        PyArg.rat (1 / 100), PyArg.rat 5, PyArg.rat 5] =
      .error PyErr.typeError ∧
    Word2VecModel.new [] = .ok unfitW2V :=
  ⟨rfl, rfl, rfl⟩

/-- C5: the claim asserts the sweep over alphas=[0.01,0.02], windows=[5],
negatives=[5] evaluates exactly 2 combinations.  Because the standard
model construction at model_fitting.py line 61 already raises TypeError,
the sweep aborts before evaluating any combination. -/
theorem C5_sweep_aborts :
    fitBestW2V [["a", "b"], ["c"]] ("Embeddings/arXiv_processed_mitigated") 42
        (PyAxis.list [1 / 100, 2 / 100]) (PyAxis.list [5]) (PyAxis.list [5]) =
      .error PyErr.typeError :=
  rfl

/-- C4: the leaderboard emitted by the sort of model_fitting.py lines
79-83 is ordered by the composite key (accuracy descending, balanced
accuracy descending, MCC descending, parameters ascending, name
ascending): every adjacent pair of rows is in key order, and the sorted
list is a permutation of the accumulated rows. -/
theorem C4_leaderboard_sorted (results : List LeaderEntry) :
    List.Chain' keyLE (sortLeaderboard results) ∧ (sortLeaderboard results).Perm results :=
  ⟨List.Pairwise.chain' (List.sorted_insertionSort keyLE results),
   List.perm_insertionSort keyLE results⟩

/-- C2 counterexample: an unfit word-vector model applied to a
single-document corpus returns the base-class scalar 0, not a zero vector
of any dimensionality (no element of the output is a vector at all), so
the claim as stated is false. -/
theorem C2_counterexample :
    (Word2VecModel.sentence_vectors unfitW2V [["unseen", "words"]]).1 =
      [SentVal.scalar 0] ∧
    ((Word2VecModel.sentence_vectors unfitW2V [["unseen", "words"]]).1.any SentVal.isVec) =
      false := by
  decide

/-- C2 amended: for every corpus, sentence_vectors on an unfit word-vector
model logs an error and returns the base-class default, the scalar 0 once
per document (so never a vector), rather than raising. -/
theorem C2_unfit_fallback (s : Word2VecState) (corpus : List (List String))
    (hs : s.model = none) :
    (Word2VecModel.sentence_vectors s corpus).1 = corpus.map (fun _ => SentVal.scalar 0) ∧
    ((Word2VecModel.sentence_vectors s corpus).1).length = corpus.length ∧
    ((Word2VecModel.sentence_vectors s corpus).1.any SentVal.isVec) = false ∧
    (Word2VecModel.sentence_vectors s corpus).2 =
      [⟨LogLevel.error, "Word2Vec model not initialized."⟩] := by
  obtain ⟨nm, mo, pa⟩ := s
  have hmo : mo = none := hs
  subst hmo
  refine ⟨rfl, by simp [Word2VecModel.sentence_vectors, EmbeddingsModel.sentence_vectors], ?_, rfl⟩
  show ((corpus.map fun _ => SentVal.scalar 0).any SentVal.isVec) = false
  simp [List.any_map, SentVal.isVec, Function.comp]

/-- C2 witness: the amended theorem applied to the concrete unfit state
and a concrete corpus. -/
theorem C2_witness :
    (unfitW2V.model = none) ∧
    ((Word2VecModel.sentence_vectors unfitW2V [["unseen", "words"], ["more"]]).1 =
        [["unseen", "words"], ["more"]].map (fun _ => SentVal.scalar 0) ∧
      ((Word2VecModel.sentence_vectors unfitW2V [["unseen", "words"], ["more"]]).1).length =
        ([["unseen", "words"], ["more"]] : List (List String)).length ∧
      ((Word2VecModel.sentence_vectors unfitW2V
          [["unseen", "words"], ["more"]]).1.any SentVal.isVec) = false ∧
      (Word2VecModel.sentence_vectors unfitW2V [["unseen", "words"], ["more"]]).2 =
        [⟨LogLevel.error, "Word2Vec model not initialized."⟩]) :=
  ⟨rfl, C2_unfit_fallback unfitW2V [["unseen", "words"], ["more"]] rfl⟩

/-- C9 counterexample: AutoTransformerModel.load performs no exception
handling, so a failing from_pretrained call propagates to the caller
instead of being logged with the handle reset to None; the claim as
stated over every strategy is therefore false. -/
theorem C9_counterexample :
    AutoTransformerModel.load cFailModelLoader cOkTokLoader cAutoState ("any_path") =
      .error (.osError ("missing")) :=
  rfl

/-- C9 amended: Word2VecModel.load never raises (it always returns
normally, and on a loader failure it logs the error and resets the model
handle to None), while AutoTransformerModel.load has no error handling,
so a failing pretrained-model load propagates its exception to the
caller. -/
theorem C9_load_error_policy :
    (∀ (loader : String → Except PyErr W2VGensim) (s : Word2VecState) (path : String),
      ∃ r, Word2VecModel.load loader s path = .ok r) ∧
    (∀ (loader : String → Except PyErr W2VGensim) (s : Word2VecState) (path : String)
      (e : PyErr), loader path = .error e →
      Word2VecModel.load loader s path =
        .ok ({ s with model := none },
          [⟨LogLevel.error, "Error loading " ++ path ++ " as a Word2Vec model."⟩])) ∧
    (∀ (fromModel : String → Except PyErr HFModel)
      (fromTok : String → Except PyErr HFTokenizer)
      (s : AutoTransformerState) (path : String) (e : PyErr),
      fromModel (s.root ++ "/" ++ s.name) = .error e →
      AutoTransformerModel.load fromModel fromTok s path = .error e) := by
  refine ⟨?_, ?_, ?_⟩
  · intro loader s path
    rw [Word2VecModel.load]
    cases loader path with
    | error e => exact ⟨_, rfl⟩
    | ok m => exact ⟨_, rfl⟩
  · intro loader s path e he
    rw [Word2VecModel.load, he]
  · intro fromModel fromTok s path e he
    simp only [AutoTransformerModel.load, he]
    rfl

/-- C9 witness: the amended theorem's Word2Vec part applied to a concrete
failing loader. -/
theorem C9_witness :
    (cFailW2VLoader ("q") = .error (.osError ("no file"))) ∧
    Word2VecModel.load cFailW2VLoader unfitW2V ("q") =
      .ok ({ unfitW2V with model := none },
        [⟨LogLevel.error, "Error loading " ++ "q" ++ " as a Word2Vec model."⟩]) :=
  ⟨rfl, C9_load_error_policy.2.1 cFailW2VLoader unfitW2V ("q") (.osError ("no file")) rfl⟩

/-- C10: on a successful load the model's name is set to
basename(path).split(".")[0]; applied to the derived artifact name with a
fractional alpha this truncates at the first dot, yielding
word2vec_alpha-0 instead of the original derived name. -/
theorem C10_load_truncates_name (loader : String → Except PyErr W2VGensim)
    (s : Word2VecState) (m : W2VGensim) (path : String)
    (hok : loader path = .ok m) :
    Word2VecModel.load loader s path =
      .ok ({ s with model := some m, name := loadedName path }, []) ∧
    loadedName ("Embeddings/word2vec_alpha-0.025_window-5_negative-5.txt") =
      "word2vec_alpha-0" ∧
    loadedName ("Embeddings/word2vec_alpha-0.025_window-5_negative-5.txt") ≠
      "word2vec_alpha-0.025_window-5_negative-5" := by
  refine ⟨?_, by decide, by decide⟩
  rw [Word2VecModel.load, hok]

/-- C10 witness: the theorem applied to a concrete always-succeeding
loader and the fractional-alpha artifact path. -/
theorem C10_witness :
    (cOkW2VLoader ("Embeddings/word2vec_alpha-0.025_window-5_negative-5.txt") = .ok cGensim) ∧
    (Word2VecModel.load cOkW2VLoader unfitW2V
        ("Embeddings/word2vec_alpha-0.025_window-5_negative-5.txt") =
      .ok ({ unfitW2V with
              model := some cGensim
              name := loadedName ("Embeddings/word2vec_alpha-0.025_window-5_negative-5.txt") },
        []) ∧
      loadedName ("Embeddings/word2vec_alpha-0.025_window-5_negative-5.txt") =
        "word2vec_alpha-0" ∧
      loadedName ("Embeddings/word2vec_alpha-0.025_window-5_negative-5.txt") ≠
        "word2vec_alpha-0.025_window-5_negative-5") :=
  ⟨rfl, C10_load_truncates_name cOkW2VLoader unfitW2V cGensim
    ("Embeddings/word2vec_alpha-0.025_window-5_negative-5.txt") rfl⟩

/-- Both branches of Word2VecModel.fit set the instance name to the
derived name of the effective hyperparameter triple. -/
theorem fit_state_name (fmt : ℚ → String)
    (train : List (List String) → ℕ → ℚ → ℚ → ℚ → W2VGensim)
    (pathExists : String → Bool) (s : Word2VecState) (corpus : List (List String))
    (output : String) (seed : ℕ) (params : Option FitParams) :
    (Word2VecModel.fit fmt train pathExists s corpus output seed params).state.name =
      fitName fmt params := by
  simp only [Word2VecModel.fit, fitName]
  split <;> rfl

/-- C7: fit derives the model name from the effective hyperparameter
triple through the fixed template, with the keys Alpha, Window, Negative
defaulting to 0.025, 5 and 5; any two fit calls whose effective triples
agree produce the same name. -/
theorem C7_fit_name_pure (fmt : ℚ → String)
    (train : List (List String) → ℕ → ℚ → ℚ → ℚ → W2VGensim)
    (pathExists : String → Bool) (s : Word2VecState) (corpus : List (List String))
    (output : String) (seed : ℕ) (params : Option FitParams) :
    ((Word2VecModel.fit fmt train pathExists s corpus output seed params).state.name =
      "word2vec_alpha-" ++ fmt (effectiveAlpha params) ++ "_window-" ++
        fmt (effectiveWindow params) ++ "_negative-" ++ fmt (effectiveNegative params)) ∧
    ∀ (train2 : List (List String) → ℕ → ℚ → ℚ → ℚ → W2VGensim)
      (pathExists2 : String → Bool) (s2 : Word2VecState) (corpus2 : List (List String))
      (output2 : String) (seed2 : ℕ) (params2 : Option FitParams),
      effectiveAlpha params = effectiveAlpha params2 →
      effectiveWindow params = effectiveWindow params2 →
      effectiveNegative params = effectiveNegative params2 →
      (Word2VecModel.fit fmt train pathExists s corpus output seed params).state.name =
        (Word2VecModel.fit fmt train2 pathExists2 s2 corpus2 output2 seed2 params2).state.name := by
  constructor
  · rw [fit_state_name, fitName, derivedName]
  · intro train2 pathExists2 s2 corpus2 output2 seed2 params2 ha hw hn
    rw [fit_state_name, fit_state_name, fitName, fitName, derivedName, derivedName, ha, hw, hn]

/-- A params dictionary with no keys. -/
def cParamsA : Option FitParams :=
  none

/-- A params dictionary spelling out two of the default values. -/
def cParamsB : Option FitParams :=
  some { Alpha := some (1 / 40), Window := some 5, Negative := none }

/-- C7 witness: two different concrete params dictionaries with the same
effective triple produce the same derived name. -/
theorem C7_witness :
    (effectiveAlpha cParamsA = effectiveAlpha cParamsB) ∧
    (effectiveWindow cParamsA = effectiveWindow cParamsB) ∧
    (effectiveNegative cParamsA = effectiveNegative cParamsB) ∧
    (Word2VecModel.fit cFmt cTrain cAllthere unfitW2V [["a"]] ("Embeddings") 42
        cParamsA).state.name =
      (Word2VecModel.fit cFmt cTrain cAllthere unfitW2V [["b"]] ("Out") 7
        cParamsB).state.name :=
  ⟨rfl, rfl, rfl,
   (C7_fit_name_pure cFmt cTrain cAllthere unfitW2V [["a"]] ("Embeddings") 42 cParamsA).2
     cTrain cAllthere unfitW2V [["b"]] ("Out") 7 cParamsB rfl rfl rfl⟩

/-- C8: when the artifact path already exists, fit returns the
early-exit result: the name is set to the derived name, an info message
is logged, nothing is written, and the model handle and parameter count
keep their prior values (in particular nothing is loaded from the
existing artifact). -/
theorem C8_skip_is_name_only_frame (fmt : ℚ → String)
    (train : List (List String) → ℕ → ℚ → ℚ → ℚ → W2VGensim)
    (pathExists : String → Bool) (s : Word2VecState) (corpus : List (List String))
    (output : String) (seed : ℕ) (params : Option FitParams)
    (hex : pathExists (output ++ "/" ++ fitName fmt params ++ ".txt") = true) :
    Word2VecModel.fit fmt train pathExists s corpus output seed params =
      { state := { s with name := fitName fmt params }
        outcome := .skipped
        logs := [⟨LogLevel.info,
          "Model " ++ (output ++ "/" ++ fitName fmt params ++ ".txt") ++ " already exists."⟩]
        writes := [] } ∧
    (Word2VecModel.fit fmt train pathExists s corpus output seed params).state.model =
      s.model ∧
    (Word2VecModel.fit fmt train pathExists s corpus output seed params).state.parameters =
      s.parameters := by
  have key : Word2VecModel.fit fmt train pathExists s corpus output seed params =
      { state := { s with name := fitName fmt params }
        outcome := .skipped
        logs := [⟨LogLevel.info,
          "Model " ++ (output ++ "/" ++ fitName fmt params ++ ".txt") ++ " already exists."⟩]
        writes := [] } := by
    simp only [fitName] at hex ⊢
    simp only [Word2VecModel.fit]
    rw [hex]
    simp
  exact ⟨key, by rw [key], by rw [key]⟩

/-- C8 witness: the theorem applied to a filesystem on which the artifact
exists and a state whose model handle is already set; the handle is kept
as-is on the skip path. -/
theorem C8_witness :
    (cAllthere ("Embeddings" ++ "/" ++ fitName cFmt none ++ ".txt") = true) ∧
    (Word2VecModel.fit cFmt cTrain cAllthere cFitW2V [["a"]] ("Embeddings") 42 none =
      { state := { cFitW2V with name := fitName cFmt none }
        outcome := .skipped
        logs := [⟨LogLevel.info,
          "Model " ++ ("Embeddings" ++ "/" ++ fitName cFmt none ++ ".txt") ++
            " already exists."⟩]
        writes := [] } ∧
      (Word2VecModel.fit cFmt cTrain cAllthere cFitW2V [["a"]] ("Embeddings") 42
          none).state.model = cFitW2V.model ∧
      (Word2VecModel.fit cFmt cTrain cAllthere cFitW2V [["a"]] ("Embeddings") 42
          none).state.parameters = cFitW2V.parameters) :=
  ⟨rfl, C8_skip_is_name_only_frame cFmt cTrain cAllthere cFitW2V [["a"]] ("Embeddings") 42
    none rfl⟩

/-- C3: the shared harness fits a default logistic regression directly on
the numeric sentence-vector split when no classifier is supplied, and
TF-IDF vectorizes the train and test portions between the split and the
fit when one is supplied; the Naive-Bayes override always supplies
MultinomialNB. -/
theorem C3_harness_classifier_branch (sv : List (List String) → List SentVal)
    (encode : List String → List ℕ) (split : List SentVal → List ℕ → ℕ → SplitResult)
    (corpus : List (List String)) (labels : List String) (seed : ℕ) (sp : SplitResult)
    (hsplit : split (sv corpus) (encode labels) seed = sp) :
    HarnessBranchSpec sv encode split corpus labels seed sp := by
  refine ⟨?_, ?_, ?_⟩
  · simp only [EmbeddingsModel.classify]
    rw [hsplit]
  · intro c
    simp only [EmbeddingsModel.classify]
    rw [hsplit]
  · intro c
    rfl

/-- C3 witness: the theorem applied to the Naive-Bayes sentence vectors
with a concrete encoder and split. -/
theorem C3_witness :
    (cSplit (NaiveBayesModel.sentence_vectors cCorpus3) (cEnc cLabels3) 42 = cSp3) ∧
    HarnessBranchSpec NaiveBayesModel.sentence_vectors cEnc cSplit cCorpus3 cLabels3 42 cSp3 :=
  ⟨rfl, C3_harness_classifier_branch NaiveBayesModel.sentence_vectors cEnc cSplit cCorpus3
    cLabels3 42 cSp3 rfl⟩

/-- C6: for a fitted word-vector model, sentence_vectors returns exactly
one value per document; each is the componentwise arithmetic mean of the
embeddings of exactly the document's in-vocabulary tokens, and a document
with no in-vocabulary token gets the zero vector of the model's embedding
dimensionality. -/
theorem C6_fitted_sentence_vectors (s : Word2VecState) (m : W2VGensim)
    (hm : s.model = some m) (hwf : wfGensim m = true)
    (corpus : List (List String)) :
    FittedSentenceVectorsSpec m corpus ((Word2VecModel.sentence_vectors s corpus).1) := by
  obtain ⟨nm, mo, pa⟩ := s
  have hmo : mo = some m := hm
  subst hmo
  have hres : ∀ i, i < corpus.length →
      ((Word2VecModel.sentence_vectors ⟨nm, some m, pa⟩ corpus).1).getD i (SentVal.scalar 0) =
        (if (knownWords m (corpus.getD i [])).isEmpty then
          SentVal.vec (List.replicate m.vector_size 0)
        else
          SentVal.vec (npMean ((knownWords m (corpus.getD i [])).map
            (fun w => (m.lookup w).getD [])))) := by
    intro i hi
    exact getD_map_of_lt _ corpus i hi [] (SentVal.scalar 0)
  constructor
  · simp [Word2VecModel.sentence_vectors]
  · intro i hi
    constructor
    · intro hknil
      rw [hres i hi, if_pos (by rw [hknil]; rfl)]
    · intro hkne
      have hcond : ¬((knownWords m (corpus.getD i [])).isEmpty = true) := by
        simpa using hkne
      rw [hres i hi, if_neg hcond]
      have hstackne : (knownWords m (corpus.getD i [])).map
          (fun w => (m.lookup w).getD []) ≠ [] := by
        simpa using hkne
      have hstacklen : ∀ u ∈ (knownWords m (corpus.getD i [])).map
          (fun w => (m.lookup w).getD []), u.length = m.vector_size := by
        intro u hu
        obtain ⟨w, hw, rfl⟩ := List.mem_map.1 hu
        have hw2 : w ∈ (corpus.getD i []).filter (fun w => m.hasWord w) := hw
        exact lookup_length m hwf w (List.mem_filter.1 hw2).2
      refine ⟨npMean ((knownWords m (corpus.getD i [])).map
        (fun w => (m.lookup w).getD [])), rfl, ?_, ?_⟩
      · exact npMean_length m.vector_size _ hstackne hstacklen
      · intro j hj
        rw [npMean_getD m.vector_size j hj _ hstackne hstacklen, List.length_map]
        have hlenne : ((knownWords m (corpus.getD i [])).length : ℚ) ≠ 0 := by
          rw [Nat.cast_ne_zero]
          intro h0
          exact hkne (List.length_eq_zero.mp h0)
        rw [div_mul_cancel₀ _ hlenne, List.map_map]
        rfl

/-- C6 witness: the theorem applied to a concrete fitted model and a
corpus with one mixed document and one all-unknown document. -/
theorem C6_witness :
    (cFitW2V.model = some cGensim) ∧ (wfGensim cGensim = true) ∧
    FittedSentenceVectorsSpec cGensim cCorpus6
      ((Word2VecModel.sentence_vectors cFitW2V cCorpus6).1) :=
  ⟨rfl, by decide, C6_fitted_sentence_vectors cFitW2V cGensim rfl (by decide) cCorpus6⟩
